import Mathlib

/-!
Shallow embedding of `src/master.py` (class `QuizGame`): a quiz game storing
questions, user credentials and scores in a SQLite database.

Modelling conventions:
* The SQLite database is a record `DB` of three tables, each a list of rows in
  insertion order.  The `users` table has `username` as PRIMARY KEY; an INSERT
  with a duplicate key raises `sqlite3.IntegrityError`.
* Python `str` is modelled by Lean `String`; Python slicing `s[:n]` / `s[n:]`
  is `strTake` / `strDrop` (character-count slicing, as in Python).
* The cryptographic primitives are abstract parameters:
  `sha256hex : List Nat → String` stands for
  `hashlib.sha256(os.urandom(60)).hexdigest()` applied to the random bytes
  (modelled as the explicit argument `rnd`), and
  `kdf : String → String → String` stands for
  `binascii.hexlify(hashlib.pbkdf2_hmac("sha512", password, salt, 100000))`
  as a function of the password and the (ascii) salt string.  Facts such as
  "a sha256 hexdigest has 64 characters" or "a hexlified sha512 PBKDF2 key has
  128 characters" appear as explicit hypotheses on these parameters.
* `logging` output and console printing are I/O and are not part of the state.
* Storage faults other than the uniqueness violation (`sqlite3.OperationalError`
  etc.) are modelled by the fault-injecting variants `register_userE` /
  `login_userE`, where a `fault = true` flag means the SQL statement raises a
  generic `sqlite3.Error` that is not an `IntegrityError`.
-/

/-- One row per table, in insertion order:
`questions(question TEXT, answer TEXT)`,
`users(username TEXT PRIMARY KEY, password TEXT)`,
`scores(username TEXT, score INTEGER)`. -/
structure DB where
  questions : List (String × String)
  users : List (String × String)
  scores : List (String × Nat)
deriving Repr, DecidableEq

/-- The freshly created database (all tables empty). -/
def DB.empty : DB := ⟨[], [], []⟩

/-- Python slicing `s[:n]` on a `str` (by characters). -/
def strTake (s : String) (n : Nat) : String := ⟨s.data.take n⟩

/-- Python slicing `s[n:]` on a `str` (by characters). -/
def strDrop (s : String) (n : Nat) : String := ⟨s.data.drop n⟩

/-- Python `str.isalnum()`: non-empty and every character alphanumeric
(restricted to the ASCII range, which is all the repository uses). -/
def pyIsAlnum (s : String) : Bool := !s.data.isEmpty && s.data.all Char.isAlphanum

/-- Python `str.lower()` (ASCII range). -/
def pyLower (s : String) : String := ⟨s.data.map Char.toLower⟩

/-- Python `str.strip()`: remove leading and trailing whitespace. -/
def pyStrip (s : String) : String :=
  ⟨((s.data.dropWhile Char.isWhitespace).reverse.dropWhile Char.isWhitespace).reverse⟩

/-- `SELECT * FROM users WHERE username=?` followed by `fetchone()`:
the first row with the given key, if any (PRIMARY KEY, so at most one). -/
def usersLookup (users : List (String × String)) (username : String) :
    Option (String × String) :=
  users.find? (fun row => row.1 == username)

/-- `sqlite3` exceptions relevant to this program: `IntegrityError`
(primary-key violation) and any other `sqlite3.Error` (I/O, corruption, ...). -/
inductive SqliteError where
  | integrityError
  | otherError
deriving Repr, DecidableEq

/-- `QuizGame.add_question`: INSERT the pair into `questions` (no uniqueness
check, no normalisation of the answer). -/
def add_question (db : DB) (question answer : String) : DB :=
  { db with questions := db.questions ++ [(question, answer)] }

/-- `QuizGame.register_user` (fault-free run): validate the input, derive
`salt = sha256(urandom(60)).hexdigest()` and
`pwdhash = hexlify(pbkdf2_hmac("sha512", password, salt, 100000))`, then
INSERT `(username, salt + pwdhash)` into `users`; a duplicate username raises
`IntegrityError`, caught and turned into `False`.  Returns the Python return
value and the database after the call. -/
def register_user (sha256hex : List Nat → String) (kdf : String → String → String)
    (db : DB) (username password : String) (rnd : List Nat) : Bool × DB :=
  if username = "" ∨ password = "" then (false, db)
  else if username.length < 3 ∨ password.length < 8 then (false, db)
  else if pyIsAlnum username = false ∨ pyIsAlnum password = false then (false, db)
  else
    let salt := sha256hex rnd
    let pwdhash := kdf password salt
    if db.users.any (fun row => row.1 == username) then (false, db)
    else (true, { db with users := db.users ++ [(username, salt ++ pwdhash)] })

/-- `QuizGame.register_user` with storage-fault injection: `fault = true`
means the INSERT raises a `sqlite3.Error` that is *not* an `IntegrityError`;
the `except sqlite3.IntegrityError` clause does not catch it, so it
propagates out of the method (`Except.error`). -/
def register_userE (sha256hex : List Nat → String) (kdf : String → String → String)
    (db : DB) (username password : String) (rnd : List Nat) (fault : Bool) :
    Except SqliteError (Bool × DB) :=
  if username = "" ∨ password = "" then .ok (false, db)
  else if username.length < 3 ∨ password.length < 8 then .ok (false, db)
  else if pyIsAlnum username = false ∨ pyIsAlnum password = false then .ok (false, db)
  else
    let salt := sha256hex rnd
    let pwdhash := kdf password salt
    if fault then .error .otherError
    else if db.users.any (fun row => row.1 == username) then .ok (false, db)
    else .ok (true, { db with users := db.users ++ [(username, salt ++ pwdhash)] })

/-- `QuizGame.login_user` (fault-free run): look the username up; if a row is
found, split its password column into `salt = record[:64]` and
`stored_password = record[64:]`, recompute the PBKDF2 key from the supplied
password and that salt, and compare; if no row is found, return `False`. -/
def login_user (kdf : String → String → String)
    (db : DB) (username password : String) : Bool :=
  match usersLookup db.users username with
  | some row =>
      let salt := strTake row.2 64
      let stored_password := strDrop row.2 64
      kdf password salt == stored_password
  | none => false

/-- `QuizGame.login_user` with storage-fault injection: the whole body is
inside `try ... except sqlite3.Error`, so a storage fault is caught, logged
and turned into `False`. -/
def login_userE (kdf : String → String → String)
    (db : DB) (username password : String) (fault : Bool) : Bool :=
  if fault then false
  else login_user kdf db username password

/-- `QuizGame.ask_question`: read the player's answer, `lower().strip()` it,
and return `1` on an exact match with the stored answer, else `0`. -/
def ask_question (userInput : String) (correct_answer : String) : Nat :=
  if pyStrip (pyLower userInput) == correct_answer then 1 else 0

/-- `QuizGame.play`: fetch all questions, sum `ask_question` over them (the
player's console inputs are the explicit list `inputs`, consumed in order),
INSERT `(username, score)` into `scores` and commit, then print the score and
the percentage `score / len(questions) * 100`.  The percentage division is
unguarded: with an empty question table Python raises `ZeroDivisionError`
*after* the score row was committed, modelled by `none` in the second
component (the percentage, an exact rational standing for the Python float). -/
def play (db : DB) (username : String) (inputs : List String) : DB × Option ℚ :=
  let questions := db.questions
  let score := ((questions.zip inputs).map (fun qa => ask_question qa.2 qa.1.2)).sum
  let db' := { db with scores := db.scores ++ [(username, score)] }
  if questions.length = 0 then (db', none)
  else (db', some ((score : ℚ) / (questions.length : ℚ) * 100))

/-- The score of one play session as a count: the number of (question, input)
pairs of the session whose normalised input equals the stored answer. -/
def countCorrect (questions : List (String × String)) (inputs : List String) : Nat :=
  (questions.zip inputs).countP (fun qa => pyStrip (pyLower qa.2) == qa.1.2)

/-! ### Helper lemmas -/

theorem strTake_append_left (s t : String) (h : s.length = 64) :
    strTake (s ++ t) 64 = s := by
  apply String.ext
  show ((s ++ t).data).take 64 = s.data
  rw [String.data_append, ← h]
  show (s.data ++ t.data).take s.data.length = s.data
  simp

theorem strDrop_append_left (s t : String) (h : s.length = 64) :
    strDrop (s ++ t) 64 = t := by
  apply String.ext
  show ((s ++ t).data).drop 64 = t.data
  rw [String.data_append, ← h]
  show (s.data ++ t.data).drop s.data.length = t.data
  simp

theorem append_ne_append_of_prefix_ne (s₁ s₂ t₁ t₂ : String)
    (h₁ : s₁.length = 64) (h₂ : s₂.length = 64) (hne : s₁ ≠ s₂) :
    s₁ ++ t₁ ≠ s₂ ++ t₂ := by
  intro h
  apply hne
  have : strTake (s₁ ++ t₁) 64 = strTake (s₂ ++ t₂) 64 := by rw [h]
  rwa [strTake_append_left s₁ t₁ h₁, strTake_append_left s₂ t₂ h₂] at this

theorem string_length_append (s t : String) : (s ++ t).length = s.length + t.length := by
  show (s ++ t).data.length = s.data.length + t.data.length
  rw [String.data_append, List.length_append]

theorem usersLookup_of_not_mem (l : List (String × String)) (u : String)
    (h : l.any (fun row => row.1 == u) = false) :
    usersLookup l u = none := by
  unfold usersLookup
  rw [List.find?_eq_none]
  intro x hx
  rw [List.any_eq_false] at h
  exact fun hc => h x hx hc

theorem usersLookup_append_last (l : List (String × String)) (u v : String)
    (h : l.any (fun row => row.1 == u) = false) :
    usersLookup (l ++ [(u, v)]) u = some (u, v) := by
  unfold usersLookup
  rw [List.find?_append]
  have h1 : l.find? (fun row => row.1 == u) = none := usersLookup_of_not_mem l u h
  rw [h1]
  simp [List.find?]

theorem usersLookup_append_of_found (l l' : List (String × String)) (u : String)
    (row : String × String) (h : usersLookup l u = some row) :
    usersLookup (l ++ l') u = some row := by
  unfold usersLookup at h ⊢
  rw [List.find?_append, h]
  rfl

set_option linter.unnecessarySeqFocus false in
theorem sum_map_ite_eq_countP {α : Type} (l : List α) (p : α → Bool) :
    (l.map (fun x => if p x then 1 else 0)).sum = l.countP p := by
  induction l with
  | nil => rfl
  | cons a l ih =>
      rw [List.map_cons, List.sum_cons, ih, List.countP_cons]
      cases h : p a <;> simp [h] <;> omega

theorem string_ne_empty_of_length (s : String) (h : 3 ≤ s.length) : ¬ s = "" := by
  intro he
  subst he
  simp [String.length] at h

/-- Unfolding of a successful registration: with valid input and an unused
username, `register_user` returns `True` and appends exactly the row
`(username, salt ++ derived_key)` to the `users` table. -/
theorem register_user_success (sha256hex : List Nat → String)
    (kdf : String → String → String) (db : DB) (username password : String)
    (rnd : List Nat)
    (hul : 3 ≤ username.length) (hua : pyIsAlnum username = true)
    (hpl : 8 ≤ password.length) (hpa : pyIsAlnum password = true)
    (habs : db.users.any (fun row => row.1 == username) = false) :
    register_user sha256hex kdf db username password rnd
      = (true, { db with users := db.users ++
          [(username, sha256hex rnd ++ kdf password (sha256hex rnd))] }) := by
  have hu0 : ¬ username = "" := by
    intro he; rw [he, String.length_empty] at hul; omega
  have hp0 : ¬ password = "" := by
    intro he; rw [he, String.length_empty] at hpl; omega
  have h1 : ¬ (username = "" ∨ password = "") := by tauto
  have h2 : ¬ (username.length < 3 ∨ password.length < 8) := by omega
  have h3 : ¬ (pyIsAlnum username = false ∨ pyIsAlnum password = false) := by
    simp [hua, hpa]
  simp [register_user, h1, h2, h3, habs]

/-- Unfolding of a rejected duplicate registration: with valid input but a
username already present, `register_user` returns `False` and leaves the
database unchanged (the `IntegrityError` fires before any write). -/
theorem register_user_duplicate (sha256hex : List Nat → String)
    (kdf : String → String → String) (db : DB) (username password : String)
    (rnd : List Nat)
    (hul : 3 ≤ username.length) (hua : pyIsAlnum username = true)
    (hpl : 8 ≤ password.length) (hpa : pyIsAlnum password = true)
    (hmem : db.users.any (fun row => row.1 == username) = true) :
    register_user sha256hex kdf db username password rnd = (false, db) := by
  have hu0 : ¬ username = "" := by
    intro he; rw [he, String.length_empty] at hul; omega
  have hp0 : ¬ password = "" := by
    intro he; rw [he, String.length_empty] at hpl; omega
  have h1 : ¬ (username = "" ∨ password = "") := by tauto
  have h2 : ¬ (username.length < 3 ∨ password.length < 8) := by omega
  have h3 : ¬ (pyIsAlnum username = false ∨ pyIsAlnum password = false) := by
    simp [hua, hpa]
  simp [register_user, h1, h2, h3, hmem]

/-! ### Concrete instantiations of the abstract crypto primitives, used to
exhibit the theorems on closed inputs. -/

/-- A stand-in for `sha256(...).hexdigest()`: always 64 characters, and
distinguishing the empty randomness from any other. -/
def demoSha (rnd : List Nat) : String :=
  ⟨List.replicate 64 (if rnd.isEmpty then 'a' else 'b')⟩

/-- A stand-in for the hexlified PBKDF2-HMAC-SHA512 key, injective in the
password for a fixed salt. -/
def demoKdf (password salt : String) : String := password ++ salt

/-- A stand-in for the hexlified PBKDF2-HMAC-SHA512 key with the real output
width (128 hex characters). -/
def demoKdf128 (password salt : String) : String :=
  ⟨List.replicate 128 (if password = salt then 'e' else 'f')⟩

/-! ### Claims -/

/-- C1: for every (username, password) pair satisfying the validation
constraints (both non-empty and alphanumeric, username length ≥ 3, password
length ≥ 8) and with username not already present in the credential store,
`register_user` returns `True`, and an immediately following `login_user`
with the same credentials returns `True`.  (The salt is a sha256 hexdigest,
hence 64 characters — the hypothesis `hsalt`.) -/
theorem register_then_login_roundtrip (sha256hex : List Nat → String)
    (kdf : String → String → String) (db : DB) (username password : String)
    (rnd : List Nat)
    (hul : 3 ≤ username.length) (hua : pyIsAlnum username = true)
    (hpl : 8 ≤ password.length) (hpa : pyIsAlnum password = true)
    (habs : db.users.any (fun row => row.1 == username) = false)
    (hsalt : (sha256hex rnd).length = 64) :
    (register_user sha256hex kdf db username password rnd).1 = true ∧
      login_user kdf (register_user sha256hex kdf db username password rnd).2
        username password = true := by
  rw [register_user_success sha256hex kdf db username password rnd hul hua hpl hpa habs]
  refine ⟨rfl, ?_⟩
  unfold login_user
  rw [show ({ db with users := db.users ++
        [(username, sha256hex rnd ++ kdf password (sha256hex rnd))] } : DB).users
      = db.users ++ [(username, sha256hex rnd ++ kdf password (sha256hex rnd))] from rfl,
    usersLookup_append_last db.users username _ habs]
  simp only [strTake_append_left _ _ hsalt, strDrop_append_left _ _ hsalt]
  exact beq_self_eq_true _

theorem register_then_login_roundtrip_witness :
    (register_user demoSha demoKdf DB.empty "alice" "password1" []).1 = true ∧
      login_user demoKdf (register_user demoSha demoKdf DB.empty "alice" "password1" []).2
        "alice" "password1" = true :=
  register_then_login_roundtrip demoSha demoKdf DB.empty "alice" "password1" []
    (by decide) (by decide) (by decide) (by decide) (by decide) (by decide)

/-- C2: `login_user` returns `True` iff the username is present in the
credential store and the PBKDF2-HMAC-SHA512 key derived from the supplied
password and the first 64 characters of the stored record equals the
remainder of the stored record; an absent username yields `False`, and a
present username whose recomputed key differs from the stored remainder also
yields `False` — the same return value in both failure cases (so a password
differing from the registered one, whose derived key therefore differs,
yields `False`). -/
theorem login_characterization (kdf : String → String → String)
    (db : DB) (username password : String) :
    (login_user kdf db username password = true ↔
      ∃ row, usersLookup db.users username = some row ∧
        kdf password (strTake row.2 64) = strDrop row.2 64) ∧
    (usersLookup db.users username = none →
      login_user kdf db username password = false) ∧
    (∀ row, usersLookup db.users username = some row →
      kdf password (strTake row.2 64) ≠ strDrop row.2 64 →
      login_user kdf db username password = false) := by
  rcases hrow : usersLookup db.users username with _ | row
  · refine ⟨?_, fun _ => ?_, fun row hr => ?_⟩ <;>
      simp [login_user, hrow] at *
  · refine ⟨?_, fun hn => ?_, fun row' hr hne => ?_⟩
    · simp [login_user, hrow, beq_iff_eq]
    · simp at hn
    · injection hr with hr
      subst hr
      simp [login_user, hrow, beq_iff_eq]
      exact hne

theorem login_characterization_witness :
    login_user demoKdf DB.empty "alice" "password1" = false :=
  (login_characterization demoKdf DB.empty "alice" "password1").2.1 rfl

/-- C3: for every (username, password) violating any validation constraint
(empty username or password, username shorter than 3, password shorter than
8, or a non-alphanumeric character in either), `register_user` returns
`False` and leaves the database completely unchanged. -/
theorem register_invalid_input (sha256hex : List Nat → String)
    (kdf : String → String → String) (db : DB) (username password : String)
    (rnd : List Nat)
    (h : username = "" ∨ password = "" ∨ username.length < 3 ∨ password.length < 8 ∨
      username.data.all Char.isAlphanum = false ∨ password.data.all Char.isAlphanum = false) :
    register_user sha256hex kdf db username password rnd = (false, db) := by
  unfold register_user
  split
  · rfl
  next h1 =>
    split
    · rfl
    next h2 =>
      split
      · rfl
      next h3 =>
        exfalso
        push_neg at h1 h2 h3
        rcases h with h | h | h | h | h | h
        · exact h1.1 h
        · exact h1.2 h
        · omega
        · omega
        · have := h3.1
          simp [pyIsAlnum, h] at this
        · have := h3.2
          simp [pyIsAlnum, h] at this

theorem register_invalid_input_witness :
    register_user demoSha demoKdf DB.empty "valid user" "password1" [] = (false, DB.empty) :=
  register_invalid_input demoSha demoKdf DB.empty "valid user" "password1" []
    (Or.inr (Or.inr (Or.inr (Or.inr (Or.inl (by decide))))))

/-- C4: registering the same username twice (with valid passwords) returns
`True` on the first call and `False` on the second, the second call changes
nothing, and the record stored for the username after both calls is the one
written by the first call. -/
theorem register_twice_same_username (sha256hex : List Nat → String)
    (kdf : String → String → String) (db : DB) (username p1 p2 : String)
    (rnd1 rnd2 : List Nat)
    (hul : 3 ≤ username.length) (hua : pyIsAlnum username = true)
    (hp1 : 8 ≤ p1.length) (hp1a : pyIsAlnum p1 = true)
    (hp2 : 8 ≤ p2.length) (hp2a : pyIsAlnum p2 = true)
    (habs : db.users.any (fun row => row.1 == username) = false) :
    (register_user sha256hex kdf db username p1 rnd1).1 = true ∧
    register_user sha256hex kdf (register_user sha256hex kdf db username p1 rnd1).2
        username p2 rnd2
      = (false, (register_user sha256hex kdf db username p1 rnd1).2) ∧
    usersLookup (register_user sha256hex kdf db username p1 rnd1).2.users username
      = some (username, sha256hex rnd1 ++ kdf p1 (sha256hex rnd1)) := by
  rw [register_user_success sha256hex kdf db username p1 rnd1 hul hua hp1 hp1a habs]
  have hmem : ({ db with users := db.users ++
        [(username, sha256hex rnd1 ++ kdf p1 (sha256hex rnd1))] } : DB).users.any
      (fun row => row.1 == username) = true := by
    simp
  exact ⟨rfl,
    register_user_duplicate sha256hex kdf _ username p2 rnd2 hul hua hp2 hp2a hmem,
    usersLookup_append_last db.users username _ habs⟩

theorem register_twice_same_username_witness :
    (register_user demoSha demoKdf DB.empty "alice" "password1" []).1 = true ∧
    register_user demoSha demoKdf
        (register_user demoSha demoKdf DB.empty "alice" "password1" []).2
        "alice" "otherpass2" [7]
      = (false, (register_user demoSha demoKdf DB.empty "alice" "password1" []).2) ∧
    usersLookup (register_user demoSha demoKdf DB.empty "alice" "password1" []).2.users
        "alice"
      = some ("alice", demoSha [] ++ demoKdf "password1" (demoSha [])) :=
  register_twice_same_username demoSha demoKdf DB.empty "alice" "password1" "otherpass2"
    [] [7] (by decide) (by decide) (by decide) (by decide) (by decide) (by decide)
    (by decide)

/-- C5 counterexample: a storage failure other than the uniqueness violation
(`sqlite3.OperationalError` etc., modelled by the `fault` flag) raised by the
INSERT inside `register_user` is *not* caught — the `except` clause only
names `sqlite3.IntegrityError` — so the exception propagates out of
`register_user` instead of being converted to `False`. -/
theorem register_storage_fault_propagates :
    register_userE demoSha demoKdf DB.empty "alice" "password1" [] true
      = Except.error SqliteError.otherError := by
  rfl

/-- C5 amended: `login_user` catches every `sqlite3.Error` and converts it to
`False`; `register_user` converts only the `IntegrityError` uniqueness
violation to `False` (its fault-free run equals `register_user`), while any
other storage failure raised by its INSERT propagates uncaught. -/
theorem storage_fault_handling (sha256hex : List Nat → String)
    (kdf : String → String → String) (db : DB) (username password : String)
    (rnd : List Nat) :
    login_userE kdf db username password true = false ∧
    (3 ≤ username.length → pyIsAlnum username = true →
      8 ≤ password.length → pyIsAlnum password = true →
      register_userE sha256hex kdf db username password rnd true
        = Except.error SqliteError.otherError) ∧
    register_userE sha256hex kdf db username password rnd false
      = Except.ok (register_user sha256hex kdf db username password rnd) := by
  refine ⟨rfl, ?_, ?_⟩
  · intro hul hua hpl hpa
    have hu0 : ¬ username = "" := by
      intro he; rw [he, String.length_empty] at hul; omega
    have hp0 : ¬ password = "" := by
      intro he; rw [he, String.length_empty] at hpl; omega
    have h1 : ¬ (username = "" ∨ password = "") := by tauto
    have h2 : ¬ (username.length < 3 ∨ password.length < 8) := by omega
    have h3 : ¬ (pyIsAlnum username = false ∨ pyIsAlnum password = false) := by
      simp [hua, hpa]
    simp [register_userE, h1, h2, h3]
  · unfold register_userE register_user
    split_ifs <;> first | rfl | contradiction

theorem storage_fault_handling_witness :
    login_userE demoKdf DB.empty "alice" "password1" true = false ∧
    register_userE demoSha demoKdf DB.empty "alice" "password1" [] true
      = Except.error SqliteError.otherError :=
  ⟨(storage_fault_handling demoSha demoKdf DB.empty "alice" "password1" []).1,
   (storage_fault_handling demoSha demoKdf DB.empty "alice" "password1" []).2.1
     (by decide) (by decide) (by decide) (by decide)⟩

/-- C6: a successful registration stores for the user a single string that is
exactly the 64-character salt immediately followed by the hex-encoded derived
key with no separator, so (with the 128-character derived-key width of
hexlified PBKDF2-HMAC-SHA512) every stored record has fixed total length
64 + 128. -/
theorem credential_record_format (sha256hex : List Nat → String)
    (kdf : String → String → String) (db : DB) (username password : String)
    (rnd : List Nat)
    (hul : 3 ≤ username.length) (hua : pyIsAlnum username = true)
    (hpl : 8 ≤ password.length) (hpa : pyIsAlnum password = true)
    (habs : db.users.any (fun row => row.1 == username) = false)
    (hsalt : (sha256hex rnd).length = 64)
    (hkey : (kdf password (sha256hex rnd)).length = 128) :
    usersLookup (register_user sha256hex kdf db username password rnd).2.users username
      = some (username, sha256hex rnd ++ kdf password (sha256hex rnd)) ∧
    strTake (sha256hex rnd ++ kdf password (sha256hex rnd)) 64 = sha256hex rnd ∧
    strDrop (sha256hex rnd ++ kdf password (sha256hex rnd)) 64
      = kdf password (sha256hex rnd) ∧
    (sha256hex rnd ++ kdf password (sha256hex rnd)).length = 64 + 128 := by
  rw [register_user_success sha256hex kdf db username password rnd hul hua hpl hpa habs]
  exact ⟨usersLookup_append_last db.users username _ habs,
    strTake_append_left _ _ hsalt, strDrop_append_left _ _ hsalt,
    by rw [string_length_append, hsalt, hkey]⟩

set_option maxRecDepth 8192 in
theorem credential_record_format_witness :
    usersLookup (register_user demoSha demoKdf128 DB.empty "alice" "password1" []).2.users
        "alice"
      = some ("alice", demoSha [] ++ demoKdf128 "password1" (demoSha [])) ∧
    strTake (demoSha [] ++ demoKdf128 "password1" (demoSha [])) 64 = demoSha [] ∧
    strDrop (demoSha [] ++ demoKdf128 "password1" (demoSha [])) 64
      = demoKdf128 "password1" (demoSha []) ∧
    (demoSha [] ++ demoKdf128 "password1" (demoSha [])).length = 64 + 128 :=
  credential_record_format demoSha demoKdf128 DB.empty "alice" "password1" []
    (by decide) (by decide) (by decide) (by decide) (by decide) (by decide) (by decide)

/-- C7: one play session over a question store of n questions records for the
user exactly the count of correctly answered questions of that session — a
natural number, hence at least 0, and at most n — and appends exactly one
(username, score) row to the scores table, touching no other table. -/
theorem play_records_score (db : DB) (username : String) (inputs : List String) :
    (play db username inputs).1.scores
      = db.scores ++ [(username, countCorrect db.questions inputs)] ∧
    countCorrect db.questions inputs ≤ db.questions.length ∧
    (play db username inputs).1.questions = db.questions ∧
    (play db username inputs).1.users = db.users := by
  have hsum : ((db.questions.zip inputs).map (fun qa => ask_question qa.2 qa.1.2)).sum
      = countCorrect db.questions inputs := by
    unfold countCorrect ask_question
    exact sum_map_ite_eq_countP _ _
  have hfst : (play db username inputs).1
      = { db with scores := db.scores ++ [(username, countCorrect db.questions inputs)] } := by
    by_cases h : db.questions.length = 0 <;> simp [play, h, hsum]
  refine ⟨by rw [hfst], ?_, by rw [hfst], by rw [hfst]⟩
  unfold countCorrect
  exact le_trans (List.countP_le_length _)
    (le_trans (le_of_eq (List.length_zip _ _)) (min_le_left _ _))

/-- C8: two successful registrations with the same password for different
usernames store different credential records whenever the freshly generated
salts differ — the record is salt ++ derived_key and the 64-character salt
prefixes already differ. -/
theorem distinct_salts_distinct_records (sha256hex : List Nat → String)
    (kdf : String → String → String) (db : DB) (u1 u2 p : String)
    (rnd1 rnd2 : List Nat)
    (hu1l : 3 ≤ u1.length) (hu1a : pyIsAlnum u1 = true)
    (hu2l : 3 ≤ u2.length) (hu2a : pyIsAlnum u2 = true)
    (hpl : 8 ≤ p.length) (hpa : pyIsAlnum p = true)
    (hne : u1 ≠ u2)
    (habs1 : db.users.any (fun row => row.1 == u1) = false)
    (habs2 : db.users.any (fun row => row.1 == u2) = false)
    (hs1 : (sha256hex rnd1).length = 64) (hs2 : (sha256hex rnd2).length = 64)
    (hsne : sha256hex rnd1 ≠ sha256hex rnd2) :
    (register_user sha256hex kdf db u1 p rnd1).1 = true ∧
    (register_user sha256hex kdf (register_user sha256hex kdf db u1 p rnd1).2
        u2 p rnd2).1 = true ∧
    ∃ r1 r2,
      usersLookup (register_user sha256hex kdf
          (register_user sha256hex kdf db u1 p rnd1).2 u2 p rnd2).2.users u1
        = some (u1, r1) ∧
      usersLookup (register_user sha256hex kdf
          (register_user sha256hex kdf db u1 p rnd1).2 u2 p rnd2).2.users u2
        = some (u2, r2) ∧
      r1 ≠ r2 := by
  rw [register_user_success sha256hex kdf db u1 p rnd1 hu1l hu1a hpl hpa habs1]
  have habs2' : ({ db with users := db.users ++
        [(u1, sha256hex rnd1 ++ kdf p (sha256hex rnd1))] } : DB).users.any
      (fun row => row.1 == u2) = false := by
    simp [List.any_append, habs2]
    exact hne
  rw [register_user_success sha256hex kdf _ u2 p rnd2 hu2l hu2a hpl hpa habs2']
  refine ⟨rfl, rfl, sha256hex rnd1 ++ kdf p (sha256hex rnd1),
    sha256hex rnd2 ++ kdf p (sha256hex rnd2), ?_, ?_, ?_⟩
  · exact usersLookup_append_of_found _ _ u1 _
      (usersLookup_append_last db.users u1 _ habs1)
  · exact usersLookup_append_last _ u2 _ habs2'
  · exact append_ne_append_of_prefix_ne _ _ _ _ hs1 hs2 hsne

set_option maxRecDepth 8192 in
theorem distinct_salts_distinct_records_witness :
    (register_user demoSha demoKdf DB.empty "alice" "password1" []).1 = true ∧
    (register_user demoSha demoKdf
        (register_user demoSha demoKdf DB.empty "alice" "password1" []).2
        "bobby" "password1" [7]).1 = true ∧
    ∃ r1 r2,
      usersLookup (register_user demoSha demoKdf
          (register_user demoSha demoKdf DB.empty "alice" "password1" []).2
          "bobby" "password1" [7]).2.users "alice" = some ("alice", r1) ∧
      usersLookup (register_user demoSha demoKdf
          (register_user demoSha demoKdf DB.empty "alice" "password1" []).2
          "bobby" "password1" [7]).2.users "bobby" = some ("bobby", r2) ∧
      r1 ≠ r2 :=
  distinct_salts_distinct_records demoSha demoKdf DB.empty "alice" "bobby" "password1"
    [] [7] (by decide) (by decide) (by decide) (by decide) (by decide) (by decide)
    (by decide) (by decide) (by decide) (by decide) (by decide) (by decide)

/-- C9 counterexample: `add_question` stores the answer verbatim, so inserting
the non-canonical answer "Paris " stores exactly "Paris ", which differs from
its lower-cased, trimmed normalisation — the stored answer is not always in
canonical form. -/
theorem add_question_not_normalized :
    (add_question DB.empty "Capital of France? " "Paris ").questions
      = [("Capital of France? ", "Paris ")] ∧
    pyStrip (pyLower "Paris ") ≠ "Paris " := by
  exact ⟨rfl, by decide⟩

/-- C9 amended: `add_question` stores the (question, answer) pair verbatim —
no normalisation is applied — so a stored answer is in lower-cased, trimmed
canonical form exactly when the caller supplied it that way (as the seed data
does); for such a canonical answer, `ask_question`'s comparison, which
normalises only the player's input, can match it. -/
theorem add_question_verbatim (db : DB) (question answer : String) :
    (add_question db question answer).questions = db.questions ++ [(question, answer)] ∧
    (pyStrip (pyLower answer) = answer → ask_question answer answer = 1) := by
  refine ⟨rfl, fun h => ?_⟩
  unfold ask_question
  rw [h]
  simp

theorem add_question_verbatim_witness :
    (add_question DB.empty "What does CPU stand for? " "central processing unit").questions
      = [("What does CPU stand for? ", "central processing unit")] ∧
    ask_question "central processing unit" "central processing unit" = 1 :=
  ⟨(add_question_verbatim DB.empty "What does CPU stand for? "
      "central processing unit").1,
   (add_question_verbatim DB.empty "What does CPU stand for? "
      "central processing unit").2 (by decide)⟩

/-- C10: with an empty question store, `play` still inserts and commits the
score row (username, 0), and only then reaches the unguarded percentage
division `score / len(questions)`, which divides by zero — the
`ZeroDivisionError` branch (`none`) is reachable at the public interface. -/
theorem play_empty_division_by_zero (db : DB) (username : String)
    (inputs : List String) (h : db.questions = []) :
    play db username inputs
      = ({ db with scores := db.scores ++ [(username, 0)] }, none) := by
  simp [play, h]

theorem play_empty_division_by_zero_witness :
    play DB.empty "alice" [] = ({ DB.empty with scores := [("alice", 0)] }, none) :=
  play_empty_division_by_zero DB.empty "alice" [] rfl
